import Mathlib

/-!
# Verification of the EMS booking / availability / payment / refund core

Shallow embedding of the NestJS services in `src/booking/booking.service.ts`
(shipped inside `booking.module.ts`), `src/payment/payment.service.ts` and the
Mongoose schemas `booking.schema.ts`, `payment.schema.ts`, `venue.schema.ts`.

Modelling conventions:
* JavaScript numbers carrying money or hours become `ℚ`; ids become `Nat`.
* `Date` values become `Instant` (calendar day index + milliseconds within the
  day); `toISOString().split('T')[0]` day-normalization becomes the `day`
  projection, and `getTime()` becomes `Instant.getTime` in milliseconds.
* `"HH:mm"` strings become `HHMM` records; the source's
  `parseInt(t.split(':')[0])` / `parseInt(t.split(':')[1])` become the `hour`
  and `minute` projections.
* Mongoose collections become lists inside a `DB` record; `save()` becomes
  replacement by id; thrown `HttpException`s become `Except ServiceError`.
* Fresh Mongo ids / reference ids are passed in as explicit arguments.
* `Math.round` becomes `jsRound x = ⌊x + 1/2⌋`.
-/

namespace EMS

/-- Booking lifecycle states, from `booking.schema.ts` `BookingStatus`. -/
inductive BookingStatus where
  | PENDING
  | CONFIRMED
  | CANCELLED
  | COMPLETED
deriving DecidableEq, Repr

/-- Booking payment states, from `booking.schema.ts` `PaymentStatus`. -/
inductive PaymentStatus where
  | UNPAID
  | PARTIAL
  | PAID
  | REFUNDED
deriving DecidableEq, Repr

/-- Payment gateways, from `payment.schema.ts` `PaymentGateway`. -/
inductive PaymentGateway where
  | ESEWA
  | KHALTI
deriving DecidableEq, Repr

/-- Payment types, from `payment.schema.ts` `PaymentType`. -/
inductive PaymentType where
  | ADVANCE
  | FULL
  | BALANCE
  | REFUND
deriving DecidableEq, Repr

/-- Payment transaction states, from `payment.schema.ts` `TransactionStatus`. -/
inductive TransactionStatus where
  | INITIATED
  | PENDING
  | COMPLETED
  | FAILED
  | REFUNDED
deriving DecidableEq, Repr

/-- A `"HH:mm"` time-of-day string, split into its numeric components. -/
structure HHMM where
  hour : Nat
  minute : Nat
deriving DecidableEq, Repr

/-- Minutes since midnight, as computed by
`parseInt(t.split(':')[0]) * 60 + parseInt(t.split(':')[1])`. -/
def HHMM.toMinutes (t : HHMM) : Nat :=
  t.hour * 60 + t.minute

/-- A JS `Date`: calendar day index plus milliseconds within the day. -/
structure Instant where
  day : Nat
  msOfDay : Nat
deriving DecidableEq, Repr

/-- `Date.prototype.getTime()` in milliseconds. -/
def Instant.getTime (i : Instant) : Int :=
  (i.day : Int) * 86400000 + (i.msOfDay : Int)

/-- `Math.round`: round half up (towards +∞). -/
def jsRound (x : ℚ) : Int :=
  ⌊x + 1 / 2⌋

/-- Round half away from zero, the rounding mode named by the spec for
`refundAmount`; compared against the source's `Math.round` (`jsRound`). -/
def roundHalfAwayFromZero (x : ℚ) : Int :=
  if 0 ≤ x then ⌊x + 1 / 2⌋ else ⌈x - 1 / 2⌉

/-- Venue cancellation policy, from `venue.schema.ts` `cancellationPolicy`. -/
structure CancellationPolicy where
  fullRefundHours : ℚ
  partialRefundHours : ℚ
  partialRefundPercentage : ℚ
  noRefundHours : ℚ
deriving DecidableEq, Repr

/-- Venue record, the fields of `venue.schema.ts` used by the booking and
payment services (`cancellationPolicy` is `Option`: `calculateRefund` guards
it with `venue.cancellationPolicy || {...}`). -/
structure Venue where
  id : Nat
  ownerId : Nat
  minCapacity : Nat
  maxCapacity : Nat
  pricePerHour : ℚ
  blockedDates : List Nat
  cancellationPolicy : Option CancellationPolicy
  isActive : Bool
deriving DecidableEq, Repr

/-- Booking record, from `booking.schema.ts`. -/
structure Booking where
  id : Nat
  userId : Nat
  venueId : Nat
  eventDate : Instant
  startTime : HHMM
  endTime : HHMM
  guestCount : Nat
  totalAmount : ℚ
  advancePaid : ℚ
  balanceAmount : ℚ
  status : BookingStatus
  paymentStatus : PaymentStatus
  cancellationReason : Option String
  cancelledAt : Option Instant
  refundAmount : ℚ
  refundPercentage : ℚ
deriving DecidableEq, Repr

/-- Payment record, from `payment.schema.ts`. -/
structure Payment where
  id : Nat
  bookingId : Nat
  userId : Nat
  venueId : Nat
  amount : ℚ
  gateway : PaymentGateway
  paymentType : PaymentType
  status : TransactionStatus
  referenceId : String
  transactionId : Option String
deriving DecidableEq, Repr

/-- The persistent store: the three Mongo collections the core touches. -/
structure DB where
  venues : List Venue
  bookings : List Booking
  payments : List Payment
deriving DecidableEq, Repr

/-- Thrown `HttpException`s of the services. -/
inductive ServiceError where
  | notFound (msg : String)
  | badRequest (msg : String)
  | forbidden (msg : String)
deriving DecidableEq, Repr

/-- `venueService.findById` (returns the venue or throws `NotFoundException`). -/
def findVenue (db : DB) (venueId : Nat) : Except ServiceError Venue :=
  match db.venues.find? (fun v => v.id = venueId) with
  | some v => .ok v
  | none => .error (.notFound "Venue not found")

/-- `bookingModel.findById`. -/
def findBooking? (db : DB) (bookingId : Nat) : Option Booking :=
  db.bookings.find? (fun b => b.id = bookingId)

/-- `booking.save()`: replace the row with the same id. -/
def saveBooking (db : DB) (b : Booking) : DB :=
  { db with bookings := db.bookings.map (fun x => if x.id = b.id then b else x) }

/-- `payment.save()`: replace the row with the same id. -/
def savePayment (db : DB) (p : Payment) : DB :=
  { db with payments := db.payments.map (fun x => if x.id = p.id then p else x) }

/-- The status filter `status: { $in: [PENDING, CONFIRMED] }`. -/
def isActiveStatus (s : BookingStatus) : Bool :=
  s = BookingStatus.PENDING || s = BookingStatus.CONFIRMED

/-- The time-overlap test of `checkAvailability`:
`newStart < existingEnd && newEnd > existingStart` on minutes since midnight,
where `b` is the existing booking and `s`, `e` the candidate interval. -/
def overlaps (b : Booking) (s e : HHMM) : Bool :=
  s.toMinutes < b.endTime.toMinutes && e.toMinutes > b.startTime.toMinutes

/-- `BookingService.checkAvailability`: false if the calendar day is blocked,
otherwise false iff some PENDING/CONFIRMED booking of the venue on the same
calendar day overlaps the candidate interval. -/
def checkAvailability (db : DB) (venueId : Nat) (date : Instant)
    (startTime endTime : HHMM) : Except ServiceError Bool := do
  let venue ← findVenue db venueId
  if venue.blockedDates.contains date.day then
    return false
  let existingBookings := db.bookings.filter
    (fun b => b.venueId = venueId && b.eventDate.day = date.day && isActiveStatus b.status)
  if existingBookings.any (fun b => overlaps b startTime endTime) then
    return false
  return true

/-- `CreateBookingDto`. -/
structure CreateBookingDto where
  venueId : Nat
  eventDate : Instant
  startTime : HHMM
  endTime : HHMM
  guestCount : Nat
  contactName : String
  contactPhone : String
  contactEmail : String
  specialRequests : Option String
deriving DecidableEq, Repr

/-- `BookingService.create` (email dispatch is a logged, non-failing side
effect and is not part of the persisted state). `freshId` stands for the Mongo
id Mongoose mints for the new document. -/
def create (db : DB) (dto : CreateBookingDto) (userId : Nat) (freshId : Nat) :
    Except ServiceError (Booking × DB) := do
  let venue ← findVenue db dto.venueId
  if !venue.isActive then
    throw (.badRequest "This venue is not available for booking")
  if dto.guestCount < venue.minCapacity || dto.guestCount > venue.maxCapacity then
    throw (.badRequest ("Guest count must be between " ++ toString venue.minCapacity
      ++ " and " ++ toString venue.maxCapacity))
  let isAvailable ← checkAvailability db dto.venueId dto.eventDate dto.startTime dto.endTime
  if !isAvailable then
    throw (.badRequest "Venue is not available for the selected date and time")
  let startHour := dto.startTime.hour
  let endHour := dto.endTime.hour
  let hours : Int := (endHour : Int) - (startHour : Int)
  let totalAmount : ℚ := (hours : ℚ) * venue.pricePerHour
  let booking : Booking :=
    { id := freshId
      userId := userId
      venueId := dto.venueId
      eventDate := dto.eventDate
      startTime := dto.startTime
      endTime := dto.endTime
      guestCount := dto.guestCount
      totalAmount := totalAmount
      advancePaid := 0
      balanceAmount := totalAmount
      status := BookingStatus.PENDING
      paymentStatus := PaymentStatus.UNPAID
      cancellationReason := none
      cancelledAt := none
      refundAmount := 0
      refundPercentage := 0 }
  return (booking, { db with bookings := db.bookings ++ [booking] })

/-- The fallback policy literal in `calculateRefund`
(`venue.cancellationPolicy || {...}`). -/
def defaultCancellationPolicy : CancellationPolicy :=
  { fullRefundHours := 72
    partialRefundHours := 24
    partialRefundPercentage := 50
    noRefundHours := 0 }

/-- Result record of `calculateRefund`. -/
structure RefundInfo where
  refundAmount : ℚ
  refundPercentage : ℚ
  message : String
deriving DecidableEq, Repr

/-- `(eventDate.getTime() - now.getTime()) / (1000 * 60 * 60)`. -/
def hoursUntilEvent (eventDate now : Instant) : ℚ :=
  ((eventDate.getTime - now.getTime : Int) : ℚ) / (1000 * 60 * 60)

/-- `BookingService.calculateRefund`. -/
def calculateRefund (booking : Booking) (venue : Venue) (now : Instant) : RefundInfo :=
  let policy := venue.cancellationPolicy.getD defaultCancellationPolicy
  let hoursUntilEvent : ℚ := hoursUntilEvent booking.eventDate now
  let (refundPercentage, message) :=
    if hoursUntilEvent ≥ policy.fullRefundHours then
      ((100 : ℚ), "Full refund - cancelled more than "
        ++ toString policy.fullRefundHours ++ " hours before event")
    else if hoursUntilEvent ≥ policy.partialRefundHours then
      (policy.partialRefundPercentage, "Partial refund ("
        ++ toString policy.partialRefundPercentage ++ "%) - cancelled within "
        ++ toString policy.fullRefundHours ++ " hours of event")
    else
      ((0 : ℚ), "No refund - cancelled within "
        ++ toString policy.partialRefundHours ++ " hours of event")
  let paidAmount := booking.advancePaid
  let refundAmount : ℚ := ((jsRound (paidAmount * refundPercentage / 100) : Int) : ℚ)
  { refundAmount := refundAmount, refundPercentage := refundPercentage, message := message }

/-- `UpdateBookingStatusDto`. -/
structure UpdateBookingStatusDto where
  status : Option BookingStatus
  paymentStatus : Option PaymentStatus
  cancellationReason : Option String
deriving DecidableEq, Repr

/-- `BookingService.updateStatus` (status-update email is a logged,
non-failing side effect). `now` stands for `new Date()`. -/
def updateStatus (db : DB) (id : Nat) (updateDto : UpdateBookingStatusDto)
    (userId : Nat) (userRole : String) (now : Instant) :
    Except ServiceError (Booking × DB) := do
  let some booking := findBooking? db id
    | throw (.notFound "Booking not found")
  let venue ← findVenue db booking.venueId
  let isBookingOwner := booking.userId = userId
  let isVenueOwner := venue.ownerId = userId
  let isAdmin := userRole = "ADMIN"
  if !isBookingOwner && !isVenueOwner && !isAdmin then
    throw (.forbidden "You do not have permission to update this booking")
  if isBookingOwner && !isVenueOwner && !isAdmin then
    if (updateDto.status.map (fun s => decide (s ≠ BookingStatus.CANCELLED))).getD false then
      throw (.forbidden "You can only cancel your own bookings")
  let booking :=
    if updateDto.status = some BookingStatus.CANCELLED then
      let refundInfo := calculateRefund booking venue now
      { booking with
          cancelledAt := some now
          cancellationReason := updateDto.cancellationReason
          refundAmount := refundInfo.refundAmount
          refundPercentage := refundInfo.refundPercentage }
    else booking
  let booking :=
    match updateDto.status with
    | some s => { booking with status := s }
    | none => booking
  let booking :=
    match updateDto.paymentStatus with
    | some ps => { booking with paymentStatus := ps }
    | none => booking
  return (booking, saveBooking db booking)

/-- Result record of `getRefundEstimate`. -/
structure RefundEstimate where
  bookingId : Nat
  paidAmount : ℚ
  refundAmount : ℚ
  refundPercentage : ℚ
  message : String
  cancellationPolicy : Option CancellationPolicy
deriving DecidableEq, Repr

/-- `BookingService.getRefundEstimate` (read-only; the store is returned so
the frame property is expressible). -/
def getRefundEstimate (db : DB) (bookingId : Nat) (userId : Nat) (now : Instant) :
    Except ServiceError (RefundEstimate × DB) := do
  let some booking := findBooking? db bookingId
    | throw (.notFound "Booking not found")
  if booking.userId ≠ userId then
    throw (.forbidden "You can only check refund for your own bookings")
  let venue ← findVenue db booking.venueId
  let refundInfo := calculateRefund booking venue now
  return ({ bookingId := booking.id
            paidAmount := booking.advancePaid
            refundAmount := refundInfo.refundAmount
            refundPercentage := refundInfo.refundPercentage
            message := refundInfo.message
            cancellationPolicy := venue.cancellationPolicy }, db)

/-- `RescheduleBookingDto`. -/
structure RescheduleBookingDto where
  newEventDate : Instant
  newStartTime : HHMM
  newEndTime : HHMM
deriving DecidableEq, Repr

/-- `BookingService.reschedule` (reschedule emails are logged, non-failing
side effects). -/
def reschedule (db : DB) (id : Nat) (rescheduleDto : RescheduleBookingDto)
    (userId : Nat) : Except ServiceError (Booking × DB) := do
  let some booking := findBooking? db id
    | throw (.notFound "Booking not found")
  if booking.userId ≠ userId then
    throw (.forbidden "You can only reschedule your own bookings")
  if !(isActiveStatus booking.status) then
    throw (.badRequest "Cannot reschedule a cancelled or completed booking")
  let isAvailable ← checkAvailability db booking.venueId rescheduleDto.newEventDate
    rescheduleDto.newStartTime rescheduleDto.newEndTime
  if !isAvailable then
    throw (.badRequest "The new date/time is not available")
  let venue ← findVenue db booking.venueId
  let startHour := rescheduleDto.newStartTime.hour
  let endHour := rescheduleDto.newEndTime.hour
  let hours : Int := (endHour : Int) - (startHour : Int)
  let newTotalAmount : ℚ := (hours : ℚ) * venue.pricePerHour
  let booking :=
    { booking with
        eventDate := rescheduleDto.newEventDate
        startTime := rescheduleDto.newStartTime
        endTime := rescheduleDto.newEndTime
        totalAmount := newTotalAmount
        balanceAmount := newTotalAmount - booking.advancePaid }
  return (booking, saveBooking db booking)

/-- `InitiatePaymentDto` (`paymentType` is optional; the service defaults it
to `FULL`). -/
structure InitiatePaymentDto where
  bookingId : Nat
  amount : ℚ
  gateway : PaymentGateway
  paymentType : Option PaymentType
deriving DecidableEq, Repr

/-- `PaymentService.initiatePayment`, up to and including persisting the new
`INITIATED` payment row. The gateway-specific payload built afterwards
(`generateEsewaPaymentData` / `generateKhaltiPaymentData`) does not change the
persisted rows on the modelled (signature / dev-mock) paths; `freshId` and
`freshRef` stand for the minted Mongo id and `generateReferenceId()` value. -/
def initiatePayment (db : DB) (dto : InitiatePaymentDto) (userId : Nat)
    (freshId : Nat) (freshRef : String) : Except ServiceError (Payment × DB) := do
  let some booking := findBooking? db dto.bookingId
    | throw (.notFound "Booking not found")
  if booking.userId ≠ userId then
    throw (.badRequest "You can only pay for your own bookings")
  let paymentType := dto.paymentType.getD PaymentType.FULL
  if paymentType = PaymentType.ADVANCE ∧ dto.amount < booking.totalAmount * (2 / 10) then
    throw (.badRequest "Advance payment must be at least 20% of total amount")
  if paymentType = PaymentType.FULL ∧ dto.amount ≠ booking.totalAmount then
    throw (.badRequest "Full payment amount must match booking total")
  if paymentType = PaymentType.BALANCE then
    let expectedBalance := booking.totalAmount - booking.advancePaid
    if dto.amount ≠ expectedBalance then
      throw (.badRequest ("Balance payment must be Rs. " ++ toString expectedBalance))
  let payment : Payment :=
    { id := freshId
      bookingId := booking.id
      userId := userId
      venueId := booking.venueId
      amount := dto.amount
      gateway := dto.gateway
      paymentType := paymentType
      status := TransactionStatus.INITIATED
      referenceId := freshRef
      transactionId := none }
  return (payment, { db with payments := db.payments ++ [payment] })

/-- `PaymentService.updateBookingPayment`: the booking-update step applied
after a successful verification. -/
def updateBookingPayment (db : DB) (payment : Payment) : DB :=
  match findBooking? db payment.bookingId with
  | none => db
  | some booking =>
    let booking :=
      match payment.paymentType with
      | PaymentType.ADVANCE =>
        { booking with
            advancePaid := payment.amount
            balanceAmount := booking.totalAmount - payment.amount
            paymentStatus := PaymentStatus.PARTIAL }
      | PaymentType.FULL =>
        { booking with
            advancePaid := payment.amount
            balanceAmount := 0
            paymentStatus := PaymentStatus.PAID }
      | PaymentType.BALANCE =>
        { booking with
            advancePaid := booking.advancePaid + payment.amount
            balanceAmount := 0
            paymentStatus := PaymentStatus.PAID }
      | PaymentType.REFUND => booking
    saveBooking db booking

/-- The base64-decoded JSON callback body handled by `verifyEsewaPayment`. -/
structure EsewaCallback where
  transaction_uuid : String
  total_amount : ℚ
  transaction_code : String
  status : String
deriving DecidableEq, Repr

/-- `PaymentService.verifyEsewaPayment`, given the already-decoded callback
body. The surrounding `try/catch` converts the inner `NotFoundException` into
`BadRequestException('Payment verification failed')`. Returns the `success`
flag and the saved payment alongside the updated store. -/
def verifyEsewaPayment (db : DB) (cb : EsewaCallback) :
    Except ServiceError (Bool × Payment × DB) :=
  match db.payments.find? (fun p => p.referenceId = cb.transaction_uuid) with
  | none => .error (.badRequest "Payment verification failed")
  | some payment =>
    if cb.status = "COMPLETE" then
      let payment :=
        { payment with
            status := TransactionStatus.COMPLETED
            transactionId := some cb.transaction_code }
      let db := savePayment db payment
      let db := updateBookingPayment db payment
      .ok (true, payment, db)
    else
      let payment := { payment with status := TransactionStatus.FAILED }
      .ok (false, payment, savePayment db payment)

/-- `PaymentService.verifyKhaltiPayment` on the deterministic dev-mode path
(`khaltiSecretKey` not configured): look the payment up by `transactionId`,
falling back to `referenceId` for `mock_`-prefixed tokens, then auto-complete
it and apply the booking update. -/
def verifyKhaltiPaymentDev (db : DB) (pidx : String) :
    Except ServiceError (Bool × Payment × DB) :=
  let byTxn := db.payments.find? (fun p => p.transactionId = some pidx)
  let found :=
    match byTxn with
    | some p => some p
    | none =>
      if pidx.startsWith "mock_" then
        db.payments.find? (fun p => p.referenceId = pidx.replace "mock_" "")
      else none
  match found with
  | none => .error (.notFound "Payment not found")
  | some payment =>
    let payment :=
      { payment with
          status := TransactionStatus.COMPLETED
          transactionId := some pidx }
    let db := savePayment db payment
    let db := updateBookingPayment db payment
    .ok (true, payment, db)

/-! ## Concrete fixtures used by witnesses and counterexamples -/

/-- An active venue: capacity 1–500, Rs. 5000/hour, nothing blocked,
default-shaped cancellation policy configured. -/
def demoVenue : Venue :=
  { id := 1
    ownerId := 50
    minCapacity := 1
    maxCapacity := 500
    pricePerHour := 5000
    blockedDates := []
    cancellationPolicy := some defaultCancellationPolicy
    isActive := true }

/-- A PENDING booking of `demoVenue` on day 100, 10:00–12:00, by user 7. -/
def demoBooking : Booking :=
  { id := 2
    userId := 7
    venueId := 1
    eventDate := { day := 100, msOfDay := 0 }
    startTime := { hour := 10, minute := 0 }
    endTime := { hour := 12, minute := 0 }
    guestCount := 50
    totalAmount := 10000
    advancePaid := 0
    balanceAmount := 10000
    status := BookingStatus.PENDING
    paymentStatus := PaymentStatus.UNPAID
    cancellationReason := none
    cancelledAt := none
    refundAmount := 0
    refundPercentage := 0 }

/-- Store with the demo venue and booking. -/
def demoDB : DB :=
  { venues := [demoVenue], bookings := [demoBooking], payments := [] }

/-- Booking cancelled 30 hours before the event with Rs. 10000 paid. -/
def c5Booking : Booking :=
  { demoBooking with
      advancePaid := 10000
      eventDate := { day := 101, msOfDay := 21600000 } }

/-- "now" for the 30-hours-before-event scenario. -/
def c5Now : Instant := { day := 100, msOfDay := 0 }

/-- The estimate returned for `demoBooking`, written with the same
subexpressions the service computes. -/
def c9Est : RefundEstimate :=
  { bookingId := demoBooking.id
    paidAmount := demoBooking.advancePaid
    refundAmount := (calculateRefund demoBooking demoVenue { day := 0, msOfDay := 0 }).refundAmount
    refundPercentage := (calculateRefund demoBooking demoVenue { day := 0, msOfDay := 0 }).refundPercentage
    message := (calculateRefund demoBooking demoVenue { day := 0, msOfDay := 0 }).message
    cancellationPolicy := demoVenue.cancellationPolicy }

/-- A venue with no cancellation policy configured. -/
def c10Venue : Venue := { demoVenue with cancellationPolicy := none }

/-- `create` input for the 10:00–18:00 scenario on `demoVenue`. -/
def c7Dto : CreateBookingDto :=
  { venueId := 1
    eventDate := { day := 101, msOfDay := 0 }
    startTime := { hour := 10, minute := 0 }
    endTime := { hour := 18, minute := 0 }
    guestCount := 100
    contactName := "Asha"
    contactPhone := "9800000000"
    contactEmail := "asha@example.com"
    specialRequests := none }

/-- The booking and store produced by the concrete `create` run. -/
def c7Pair : Booking × DB :=
  match create demoDB c7Dto 7 3 with
  | .ok pr => pr
  | .error _ => (demoBooking, demoDB)

/-- Booking with totalAmount 40000 for the 20%-deposit scenario. -/
def c8Booking : Booking :=
  { demoBooking with id := 4, totalAmount := 40000, balanceAmount := 40000 }

/-- Store for the deposit scenario. -/
def c8DB : DB := { venues := [demoVenue], bookings := [c8Booking], payments := [] }

/-- ADVANCE payment attempt of 5000 against the 40000 booking. -/
def c8Dto : InitiatePaymentDto :=
  { bookingId := 4
    amount := 5000
    gateway := PaymentGateway.ESEWA
    paymentType := some PaymentType.ADVANCE }

/-- The payment row as saved by a successful verification:
status COMPLETED and the gateway transaction id recorded. -/
def completedPayment (p : Payment) (txn : String) : Payment :=
  { p with status := TransactionStatus.COMPLETED, transactionId := some txn }

/-- Booking used by the C6 round-trip scenario. -/
def c6Booking : Booking := { demoBooking with id := 6 }

/-- Store for the C6 scenarios. -/
def c6DB : DB := { venues := [demoVenue], bookings := [c6Booking], payments := [] }

/-- FULL payment of the booking total, Rs. 10000. -/
def c6Dto : InitiatePaymentDto :=
  { bookingId := 6
    amount := 10000
    gateway := PaymentGateway.ESEWA
    paymentType := some PaymentType.FULL }

/-- The payment row and store produced by the concrete initiation. -/
def c6InitPair : Payment × DB :=
  match initiatePayment c6DB c6Dto 7 11 "PAY-C6" with
  | .ok pr => pr
  | .error _ => (⟨0, 0, 0, 0, 0, PaymentGateway.ESEWA, PaymentType.FULL,
      TransactionStatus.INITIATED, "", none⟩, c6DB)

/-- Successful eSewa callback for the initiated payment. -/
def c6Cb : EsewaCallback :=
  { transaction_uuid := "PAY-C6"
    total_amount := 10000
    transaction_code := "TXN-C6"
    status := "COMPLETE" }

/-- The outcome of verifying the callback. -/
def c6VerResult : Bool × Payment × DB :=
  match verifyEsewaPayment c6InitPair.2 c6Cb with
  | .ok t => t
  | .error _ => (false, c6InitPair.1, c6InitPair.2)

/-- A COMPLETED BALANCE payment of Rs. 5000 against the C6 booking. -/
def c6BalPayment : Payment :=
  { id := 12
    bookingId := 6
    userId := 7
    venueId := 1
    amount := 5000
    gateway := PaymentGateway.ESEWA
    paymentType := PaymentType.BALANCE
    status := TransactionStatus.COMPLETED
    referenceId := "PAY-C6B"
    transactionId := none }

/-- Booking already fully paid: Rs. 10000 total, Rs. 10000 credited, PAID. -/
def c1Booking : Booking :=
  { demoBooking with
      id := 21
      advancePaid := 10000
      balanceAmount := 0
      status := BookingStatus.CONFIRMED
      paymentStatus := PaymentStatus.PAID }

/-- BALANCE payment of Rs. 5000 that has already been verified once
(status COMPLETED, transaction id recorded). -/
def c1Payment : Payment :=
  { id := 22
    bookingId := 21
    userId := 7
    venueId := 1
    amount := 5000
    gateway := PaymentGateway.ESEWA
    paymentType := PaymentType.BALANCE
    status := TransactionStatus.COMPLETED
    referenceId := "PAY-C1"
    transactionId := some "TXN-C1" }

/-- Store after the first successful verification. -/
def c1DB : DB := { venues := [demoVenue], bookings := [c1Booking], payments := [c1Payment] }

/-- The same successful gateway callback, delivered a second time. -/
def c1Cb : EsewaCallback :=
  { transaction_uuid := "PAY-C1"
    total_amount := 5000
    transaction_code := "TXN-C1"
    status := "COMPLETE" }

/-- Outcome of the repeated verification call. -/
def c1Result : Bool × Payment × DB :=
  match verifyEsewaPayment c1DB c1Cb with
  | .ok t => t
  | .error _ => (false, c1Payment, c1DB)

/-- A booking that has already been cancelled. -/
def c3Booking : Booking := { demoBooking with id := 31, status := BookingStatus.CANCELLED }

/-- Store with the cancelled booking. -/
def c3DB : DB := { venues := [demoVenue], bookings := [c3Booking], payments := [] }

/-- Admin request to set the status back to CONFIRMED. -/
def c3Dto : UpdateBookingStatusDto :=
  { status := some BookingStatus.CONFIRMED
    paymentStatus := none
    cancellationReason := none }

/-- Outcome of the admin call on the cancelled booking. -/
def c3Result : Booking × DB :=
  match updateStatus c3DB 31 c3Dto 99 "ADMIN" { day := 100, msOfDay := 0 } with
  | .ok pr => pr
  | .error _ => (c3Booking, c3DB)

/-- The PENDING booking to be shifted by one hour on the same day. -/
def c4Booking : Booking := { demoBooking with id := 41 }

/-- Store with only that booking. -/
def c4DB : DB := { venues := [demoVenue], bookings := [c4Booking], payments := [] }

/-- Reschedule request: same day, 11:00–13:00 — overlapping only the
booking's own current 10:00–12:00 slot. -/
def c4Dto : RescheduleBookingDto :=
  { newEventDate := { day := 100, msOfDay := 0 }
    newStartTime := { hour := 11, minute := 0 }
    newEndTime := { hour := 13, minute := 0 } }

/-! ## C2 — checkAvailability characterisation -/

/-- C2: `checkAvailability(venueId, date, startTime, endTime)` returns false
if and only if the calendar day is in `venue.blockedDates`, or the candidate
interval overlaps some PENDING/CONFIRMED booking of the same venue on the
same calendar day, where times are minutes-since-midnight and overlap means
`candidateStart < existingEnd AND candidateEnd > existingStart` (so a blocked
date rejects every interval, and adjacent intervals do not overlap). -/
theorem checkAvailability_false_iff (db : DB) (venueId : Nat) (date : Instant)
    (startTime endTime : HHMM) (venue : Venue)
    (hv : findVenue db venueId = .ok venue) :
    checkAvailability db venueId date startTime endTime = .ok false ↔
      (date.day ∈ venue.blockedDates ∨
        ∃ b ∈ db.bookings, b.venueId = venueId ∧ b.eventDate.day = date.day ∧
          (b.status = BookingStatus.PENDING ∨ b.status = BookingStatus.CONFIRMED) ∧
          startTime.toMinutes < b.endTime.toMinutes ∧
          endTime.toMinutes > b.startTime.toMinutes) := by
  have heq : checkAvailability db venueId date startTime endTime =
      .ok (!(venue.blockedDates.contains date.day) &&
        !((db.bookings.filter (fun b => b.venueId = venueId
            && b.eventDate.day = date.day && isActiveStatus b.status)).any
          (fun b => overlaps b startTime endTime))) := by
    unfold checkAvailability
    rw [hv]
    show Except.bind (Except.ok venue) _ = _
    simp only [Except.bind]
    cases hcb : venue.blockedDates.contains date.day <;>
      cases hca : (db.bookings.filter (fun b => b.venueId = venueId
          && b.eventDate.day = date.day && isActiveStatus b.status)).any
          (fun b => overlaps b startTime endTime) <;>
      simp [hcb, hca, pure, Except.pure, Bind.bind, Except.bind]
  rw [heq]
  cases hcb : venue.blockedDates.contains date.day <;>
    cases hca : (db.bookings.filter (fun b => b.venueId = venueId
        && b.eventDate.day = date.day && isActiveStatus b.status)).any
        (fun b => overlaps b startTime endTime)
  · -- not blocked, no overlap: available, and neither disjunct can hold
    simp only [hcb, hca, Bool.not_false, Bool.and_self, Except.ok.injEq,
      Bool.true_eq_false, false_iff]
    rintro (hmem | ⟨b, hmem, hvid, hday, hst, hov1, hov2⟩)
    · have h1 : venue.blockedDates.contains date.day = true := List.elem_iff.mpr hmem
      rw [h1] at hcb
      exact Bool.true_eq_false.mp hcb
    · have : (db.bookings.filter (fun b => b.venueId = venueId
          && b.eventDate.day = date.day && isActiveStatus b.status)).any
          (fun b => overlaps b startTime endTime) = true := by
        refine List.any_eq_true.mpr ⟨b, List.mem_filter.mpr ⟨hmem, ?_⟩, ?_⟩
        · simp [hvid, hday, isActiveStatus, hst]
        · simp only [overlaps, Bool.and_eq_true, decide_eq_true_eq]
          exact ⟨hov1, hov2⟩
      rw [this] at hca
      exact Bool.true_eq_false.mp hca
  · -- not blocked, overlap exists: unavailable, right disjunct holds
    simp only [hcb, hca, Bool.not_false, Bool.not_true, Bool.and_false,
      Except.ok.injEq, true_iff]
    refine Or.inr ?_
    obtain ⟨b, hbf, hov⟩ := List.any_eq_true.mp hca
    obtain ⟨hmem, hcond⟩ := List.mem_filter.mp hbf
    simp only [Bool.and_eq_true, decide_eq_true_eq, isActiveStatus,
      Bool.or_eq_true] at hcond
    simp only [overlaps, Bool.and_eq_true, decide_eq_true_eq] at hov
    exact ⟨b, hmem, hcond.1.1, hcond.1.2, hcond.2, hov.1, hov.2⟩
  all_goals
  -- blocked: unavailable, left disjunct holds
    simp only [hcb, Bool.not_true, Bool.false_and, Except.ok.injEq, true_iff]
    exact Or.inl (List.elem_iff.mp hcb)

/-- Witness for C2 at a concrete input: `demoDB` holds a PENDING booking
10:00–12:00 on day 100, and the characterisation applies to the candidate
slot 11:00–13:00 on that day. -/
theorem checkAvailability_false_iff_witness :
    findVenue demoDB 1 = .ok demoVenue ∧
      (checkAvailability demoDB 1 { day := 100, msOfDay := 0 }
          { hour := 11, minute := 0 } { hour := 13, minute := 0 } = .ok false ↔
        ((100 : Nat) ∈ demoVenue.blockedDates ∨
          ∃ b ∈ demoDB.bookings, b.venueId = 1 ∧ b.eventDate.day = 100 ∧
            (b.status = BookingStatus.PENDING ∨ b.status = BookingStatus.CONFIRMED) ∧
            HHMM.toMinutes { hour := 11, minute := 0 } < b.endTime.toMinutes ∧
            HHMM.toMinutes { hour := 13, minute := 0 } > b.startTime.toMinutes)) :=
  ⟨rfl, checkAvailability_false_iff demoDB 1 { day := 100, msOfDay := 0 }
    { hour := 11, minute := 0 } { hour := 13, minute := 0 } demoVenue rfl⟩

/-! ## C5 — refund tiers and rounding -/

/-- For nonnegative arguments, round-half-away-from-zero coincides with
JavaScript's `Math.round`. -/
lemma roundHalfAwayFromZero_eq_jsRound {x : ℚ} (hx : 0 ≤ x) :
    roundHalfAwayFromZero x = jsRound x := by
  unfold roundHalfAwayFromZero jsRound
  rw [if_pos hx]

/-- C5: with `h = hoursUntilEvent`, `calculateRefund` yields refundPercentage
100 when `h ≥ fullRefundHours`, `partialRefundPercentage` when
`partialRefundHours ≤ h < fullRefundHours`, and 0 when
`h < partialRefundHours`; `refundAmount` is `advancePaid × pct / 100` rounded
half away from zero. For policy {72, 24, 50%}, `h = 30` and
`advancePaid = 10000`, the result is 50% and Rs. 5000. -/
theorem calculateRefund_tiers (booking : Booking) (venue : Venue) (now : Instant)
    (hpaid : 0 ≤ booking.advancePaid)
    (hpct : 0 ≤ (venue.cancellationPolicy.getD defaultCancellationPolicy).partialRefundPercentage)
    (hpol : (venue.cancellationPolicy.getD defaultCancellationPolicy).partialRefundHours ≤
      (venue.cancellationPolicy.getD defaultCancellationPolicy).fullRefundHours) :
    (hoursUntilEvent booking.eventDate now ≥
        (venue.cancellationPolicy.getD defaultCancellationPolicy).fullRefundHours →
      (calculateRefund booking venue now).refundPercentage = 100) ∧
    ((venue.cancellationPolicy.getD defaultCancellationPolicy).partialRefundHours ≤
        hoursUntilEvent booking.eventDate now ∧
      hoursUntilEvent booking.eventDate now <
        (venue.cancellationPolicy.getD defaultCancellationPolicy).fullRefundHours →
      (calculateRefund booking venue now).refundPercentage =
        (venue.cancellationPolicy.getD defaultCancellationPolicy).partialRefundPercentage) ∧
    (hoursUntilEvent booking.eventDate now <
        (venue.cancellationPolicy.getD defaultCancellationPolicy).partialRefundHours →
      (calculateRefund booking venue now).refundPercentage = 0) ∧
    (calculateRefund booking venue now).refundAmount =
      ((roundHalfAwayFromZero (booking.advancePaid *
        (calculateRefund booking venue now).refundPercentage / 100) : ℤ) : ℚ) ∧
    (calculateRefund c5Booking demoVenue c5Now).refundPercentage = 50 ∧
    (calculateRefund c5Booking demoVenue c5Now).refundAmount = 5000 := by
  refine ⟨?_, ?_, ?_, ?_, ?_, ?_⟩
  · intro hge
    simp only [calculateRefund]
    rw [if_pos hge]
  · rintro ⟨h1, h2⟩
    simp only [calculateRefund]
    rw [if_neg (not_le.mpr h2), if_pos h1]
  · intro hlt
    simp only [calculateRefund]
    rw [if_neg (not_le.mpr (lt_of_lt_of_le hlt hpol)), if_neg (not_le.mpr hlt)]
  · simp only [calculateRefund]
    split_ifs with h1 h2 <;> dsimp only
    · rw [roundHalfAwayFromZero_eq_jsRound
        (div_nonneg (mul_nonneg hpaid (by norm_num)) (by norm_num))]
    · rw [roundHalfAwayFromZero_eq_jsRound
        (div_nonneg (mul_nonneg hpaid hpct) (by norm_num))]
    · rw [roundHalfAwayFromZero_eq_jsRound
        (div_nonneg (mul_nonneg hpaid (le_refl 0)) (by norm_num))]
  · norm_num [calculateRefund, hoursUntilEvent, Instant.getTime, c5Booking,
      c5Now, demoBooking, demoVenue, defaultCancellationPolicy]
  · norm_num [calculateRefund, hoursUntilEvent, Instant.getTime, c5Booking,
      c5Now, demoBooking, demoVenue, defaultCancellationPolicy, jsRound]

/-- Witness for C5 at the concrete 30-hours scenario. -/
theorem calculateRefund_tiers_witness :
    (0 ≤ c5Booking.advancePaid ∧
      0 ≤ (demoVenue.cancellationPolicy.getD defaultCancellationPolicy).partialRefundPercentage ∧
      (demoVenue.cancellationPolicy.getD defaultCancellationPolicy).partialRefundHours ≤
        (demoVenue.cancellationPolicy.getD defaultCancellationPolicy).fullRefundHours) ∧
    ((hoursUntilEvent c5Booking.eventDate c5Now ≥
        (demoVenue.cancellationPolicy.getD defaultCancellationPolicy).fullRefundHours →
      (calculateRefund c5Booking demoVenue c5Now).refundPercentage = 100) ∧
    ((demoVenue.cancellationPolicy.getD defaultCancellationPolicy).partialRefundHours ≤
        hoursUntilEvent c5Booking.eventDate c5Now ∧
      hoursUntilEvent c5Booking.eventDate c5Now <
        (demoVenue.cancellationPolicy.getD defaultCancellationPolicy).fullRefundHours →
      (calculateRefund c5Booking demoVenue c5Now).refundPercentage =
        (demoVenue.cancellationPolicy.getD defaultCancellationPolicy).partialRefundPercentage) ∧
    (hoursUntilEvent c5Booking.eventDate c5Now <
        (demoVenue.cancellationPolicy.getD defaultCancellationPolicy).partialRefundHours →
      (calculateRefund c5Booking demoVenue c5Now).refundPercentage = 0) ∧
    (calculateRefund c5Booking demoVenue c5Now).refundAmount =
      ((roundHalfAwayFromZero (c5Booking.advancePaid *
        (calculateRefund c5Booking demoVenue c5Now).refundPercentage / 100) : ℤ) : ℚ) ∧
    (calculateRefund c5Booking demoVenue c5Now).refundPercentage = 50 ∧
    (calculateRefund c5Booking demoVenue c5Now).refundAmount = 5000) :=
  ⟨⟨by norm_num [c5Booking, demoBooking], by norm_num [demoVenue, defaultCancellationPolicy],
      by norm_num [demoVenue, defaultCancellationPolicy]⟩,
    calculateRefund_tiers c5Booking demoVenue c5Now
      (by norm_num [c5Booking, demoBooking])
      (by norm_num [demoVenue, defaultCancellationPolicy])
      (by norm_num [demoVenue, defaultCancellationPolicy])⟩

/-! ## C9 — refund estimate is read-only and the calculation is pure -/

/-- C9: `getRefundEstimate` leaves the store untouched, and the refund
calculation is a function of the event date, the current time, the amount
paid and the venue's cancellation policy only. -/
theorem getRefundEstimate_pure :
    (∀ (db : DB) (bookingId userId : Nat) (now : Instant)
        (est : RefundEstimate) (db' : DB),
      getRefundEstimate db bookingId userId now = .ok (est, db') → db' = db) ∧
    (∀ (b1 b2 : Booking) (v1 v2 : Venue) (now : Instant),
      b1.eventDate = b2.eventDate → b1.advancePaid = b2.advancePaid →
      v1.cancellationPolicy = v2.cancellationPolicy →
      calculateRefund b1 v1 now = calculateRefund b2 v2 now) := by
  constructor
  · intro db bookingId userId now est db' h
    unfold getRefundEstimate at h
    split at h
    · -- a booking was found
      split at h
      · -- requester is not the booking's user: the call throws
        simp [Bind.bind, Except.bind, throw, throwThe, MonadExceptOf.throw] at h
      · -- requester owns the booking
        simp only [Bind.bind, Except.bind, pure, Except.pure] at h
        split at h
        · -- venue lookup failed: the call throws
          exact absurd h (by simp)
        · -- venue found: the returned store is the input store
          simp only [Except.ok.injEq, Prod.mk.injEq] at h
          exact h.2.symm
    · -- no booking: the call throws
      simp [throw, throwThe, MonadExceptOf.throw] at h
  · intro b1 b2 v1 v2 now h1 h2 h3
    simp only [calculateRefund, hoursUntilEvent, h1, h2, h3]

/-- Witness for C9: a concrete estimate call on `demoDB` returns the store
unchanged. -/
theorem getRefundEstimate_pure_witness :
    getRefundEstimate demoDB 2 7 { day := 0, msOfDay := 0 } = .ok (c9Est, demoDB) ∧
      demoDB = demoDB :=
  ⟨rfl, getRefundEstimate_pure.1 demoDB 2 7 { day := 0, msOfDay := 0 } c9Est demoDB rfl⟩

/-! ## C10 — missing cancellation policy falls back to the default -/

/-- C10: when the venue has no cancellation policy configured,
`calculateRefund` behaves exactly as if the venue had the default policy
{fullRefundHours 72, partialRefundHours 24, partialRefundPercentage 50,
noRefundHours 0}. -/
theorem calculateRefund_default_fallback (booking : Booking) (venue : Venue)
    (now : Instant) (hnone : venue.cancellationPolicy = none) :
    calculateRefund booking venue now =
      calculateRefund booking
        { venue with cancellationPolicy := some ⟨72, 24, 50, 0⟩ } now := by
  unfold calculateRefund
  rw [hnone]
  rfl

/-- Witness for C10 at a concrete venue without a policy. -/
theorem calculateRefund_default_fallback_witness :
    c10Venue.cancellationPolicy = none ∧
      calculateRefund demoBooking c10Venue c5Now =
        calculateRefund demoBooking
          { c10Venue with cancellationPolicy := some ⟨72, 24, 50, 0⟩ } c5Now :=
  ⟨rfl, calculateRefund_default_fallback demoBooking c10Venue c5Now rfl⟩

/-! ## C7 — booking creation: hour-granular price, initial state -/

/-- C7: a successful `create` prices the slot as
(endTime hour − startTime hour) × pricePerHour — minutes ignored — and
persists the booking with status PENDING, paymentStatus UNPAID,
advancePaid 0 and balanceAmount = totalAmount; with pricePerHour 5000 and
slot 10:00–18:00 the total is 40000. -/
theorem create_spec (db : DB) (dto : CreateBookingDto) (userId freshId : Nat)
    (venue : Venue) (booking : Booking) (db' : DB)
    (hv : findVenue db dto.venueId = .ok venue)
    (hc : create db dto userId freshId = .ok (booking, db')) :
    booking.totalAmount =
      ((((dto.endTime.hour : Int) - (dto.startTime.hour : Int)) : ℚ) * venue.pricePerHour) ∧
    booking.status = BookingStatus.PENDING ∧
    booking.paymentStatus = PaymentStatus.UNPAID ∧
    booking.advancePaid = 0 ∧
    booking.balanceAmount = booking.totalAmount ∧
    db'.bookings = db.bookings ++ [booking] ∧
    (venue.pricePerHour = 5000 → dto.startTime = { hour := 10, minute := 0 } →
      dto.endTime = { hour := 18, minute := 0 } → booking.totalAmount = 40000) := by
  unfold create at hc
  rw [hv] at hc
  simp only [Bind.bind, Except.bind] at hc
  by_cases hact : venue.isActive = true
  case neg =>
    rw [Bool.not_eq_true] at hact
    simp [hact, throw, throwThe, MonadExceptOf.throw] at hc
  by_cases h1 : dto.guestCount < venue.minCapacity
  · simp [hact, h1, pure, Except.pure, throw, throwThe, MonadExceptOf.throw] at hc
  by_cases h2 : dto.guestCount > venue.maxCapacity
  · simp [hact, h1, h2, pure, Except.pure, throw, throwThe, MonadExceptOf.throw] at hc
  cases hA : checkAvailability db dto.venueId dto.eventDate dto.startTime dto.endTime with
  | error e =>
    rw [hA] at hc
    simp [hact, h1, h2, pure, Except.pure, throw, throwThe, MonadExceptOf.throw] at hc
  | ok avail =>
    rw [hA] at hc
    cases avail with
    | false =>
      simp [hact, h1, h2, pure, Except.pure, throw, throwThe, MonadExceptOf.throw] at hc
    | true =>
      simp only [hact, decide_eq_false h1, decide_eq_false h2, Bool.or_self,
        Bool.not_true, Bool.not_false, Bool.false_eq_true, if_false,
        pure, Except.pure, if_true, Bool.true_eq_false,
        ite_false, ite_true] at hc
      simp only [Except.ok.injEq, Prod.mk.injEq] at hc
      obtain ⟨hb, hdb⟩ := hc
      subst hb
      subst hdb
      refine ⟨by push_cast; ring, rfl, rfl, rfl, rfl, rfl, ?_⟩
      intro hp hs he
      rw [hs, he, hp]
      norm_num

/-- Witness for C7: the concrete `create` run on `demoDB` succeeds and the
characterisation applies to it. -/
theorem create_spec_witness :
    (findVenue demoDB 1 = .ok demoVenue ∧
      create demoDB c7Dto 7 3 = .ok (c7Pair.1, c7Pair.2)) ∧
    ((c7Pair.1).totalAmount =
      ((((c7Dto.endTime.hour : Int) - (c7Dto.startTime.hour : Int)) : ℚ) * demoVenue.pricePerHour) ∧
    (c7Pair.1).status = BookingStatus.PENDING ∧
    (c7Pair.1).paymentStatus = PaymentStatus.UNPAID ∧
    (c7Pair.1).advancePaid = 0 ∧
    (c7Pair.1).balanceAmount = (c7Pair.1).totalAmount ∧
    (c7Pair.2).bookings = demoDB.bookings ++ [c7Pair.1] ∧
    (demoVenue.pricePerHour = 5000 → c7Dto.startTime = { hour := 10, minute := 0 } →
      c7Dto.endTime = { hour := 18, minute := 0 } → (c7Pair.1).totalAmount = 40000)) :=
  ⟨⟨rfl, rfl⟩, create_spec demoDB c7Dto 7 3 demoVenue c7Pair.1 c7Pair.2 rfl rfl⟩

/-! ## C8 — payment initiation amount validation -/

/-- C8: with the booking present and owned by the requester,
`initiatePayment` fails with a Validation (`BadRequestException`) error
exactly when the per-type amount rule is violated: ADVANCE needs
`amount ≥ 0.20 × totalAmount`, FULL needs `amount = totalAmount`, BALANCE
needs `amount = totalAmount − advancePaid`. -/
theorem initiatePayment_validation (db : DB) (dto : InitiatePaymentDto)
    (userId freshId : Nat) (freshRef : String) (booking : Booking)
    (hf : findBooking? db dto.bookingId = some booking)
    (ho : booking.userId = userId) :
    (dto.paymentType.getD PaymentType.FULL = PaymentType.ADVANCE →
      ((∃ m, initiatePayment db dto userId freshId freshRef = .error (.badRequest m)) ↔
        dto.amount < booking.totalAmount * (2 / 10))) ∧
    (dto.paymentType.getD PaymentType.FULL = PaymentType.FULL →
      ((∃ m, initiatePayment db dto userId freshId freshRef = .error (.badRequest m)) ↔
        dto.amount ≠ booking.totalAmount)) ∧
    (dto.paymentType.getD PaymentType.FULL = PaymentType.BALANCE →
      ((∃ m, initiatePayment db dto userId freshId freshRef = .error (.badRequest m)) ↔
        dto.amount ≠ booking.totalAmount - booking.advancePaid)) := by
  have hne : ¬ booking.userId ≠ userId := fun hne => hne ho
  refine ⟨?_, ?_, ?_⟩
  · intro hpt
    by_cases hlt : dto.amount < booking.totalAmount * (2 / 10)
    · refine ⟨fun _ => hlt, fun _ => ?_⟩
      refine ⟨"Advance payment must be at least 20% of total amount", ?_⟩
      unfold initiatePayment
      rw [hf]
      simp [hne, hpt, hlt, Bind.bind, Except.bind, pure, Except.pure,
        throw, throwThe, MonadExceptOf.throw]
    · refine ⟨fun hex => ?_, fun h => absurd h hlt⟩
      exfalso
      obtain ⟨m, hm⟩ := hex
      unfold initiatePayment at hm
      rw [hf] at hm
      simp [hne, hpt, hlt, Bind.bind, Except.bind, pure, Except.pure,
        throw, throwThe, MonadExceptOf.throw] at hm
  · intro hpt
    by_cases heq : dto.amount = booking.totalAmount
    · refine ⟨fun hex => ?_, fun h => absurd heq h⟩
      exfalso
      obtain ⟨m, hm⟩ := hex
      unfold initiatePayment at hm
      rw [hf] at hm
      simp [hne, hpt, heq, Bind.bind, Except.bind, pure, Except.pure,
        throw, throwThe, MonadExceptOf.throw] at hm
    · refine ⟨fun _ => heq, fun _ => ?_⟩
      refine ⟨"Full payment amount must match booking total", ?_⟩
      unfold initiatePayment
      rw [hf]
      simp [hne, hpt, heq, Bind.bind, Except.bind, pure, Except.pure,
        throw, throwThe, MonadExceptOf.throw]
  · intro hpt
    by_cases heq : dto.amount = booking.totalAmount - booking.advancePaid
    · refine ⟨fun hex => ?_, fun h => absurd heq h⟩
      exfalso
      obtain ⟨m, hm⟩ := hex
      unfold initiatePayment at hm
      rw [hf] at hm
      simp [hne, hpt, heq, Bind.bind, Except.bind, pure, Except.pure,
        throw, throwThe, MonadExceptOf.throw] at hm
    · refine ⟨fun _ => heq, fun _ => ?_⟩
      refine ⟨"Balance payment must be Rs. "
        ++ toString (booking.totalAmount - booking.advancePaid), ?_⟩
      unfold initiatePayment
      rw [hf]
      simp [hne, hpt, heq, Bind.bind, Except.bind, pure, Except.pure,
        throw, throwThe, MonadExceptOf.throw]

/-- Witness for C8: the ADVANCE attempt of 5000 on a 40000 booking
(20% minimum 8000) fails validation. -/
theorem initiatePayment_validation_witness :
    (findBooking? c8DB 4 = some c8Booking ∧ c8Booking.userId = 7) ∧
    ((c8Dto.paymentType.getD PaymentType.FULL = PaymentType.ADVANCE →
      ((∃ m, initiatePayment c8DB c8Dto 7 9 "PAY-C8" = .error (.badRequest m)) ↔
        c8Dto.amount < c8Booking.totalAmount * (2 / 10))) ∧
    (c8Dto.paymentType.getD PaymentType.FULL = PaymentType.FULL →
      ((∃ m, initiatePayment c8DB c8Dto 7 9 "PAY-C8" = .error (.badRequest m)) ↔
        c8Dto.amount ≠ c8Booking.totalAmount)) ∧
    (c8Dto.paymentType.getD PaymentType.FULL = PaymentType.BALANCE →
      ((∃ m, initiatePayment c8DB c8Dto 7 9 "PAY-C8" = .error (.badRequest m)) ↔
        c8Dto.amount ≠ c8Booking.totalAmount - c8Booking.advancePaid))) ∧
    (∃ m, initiatePayment c8DB c8Dto 7 9 "PAY-C8" = .error (.badRequest m)) := by
  have main := initiatePayment_validation c8DB c8Dto 7 9 "PAY-C8" c8Booking rfl rfl
  refine ⟨⟨rfl, rfl⟩, main, ?_⟩
  exact (main.1 rfl).mpr (by norm_num [c8Dto, c8Booking, demoBooking])

/-! ## C6 — booking-update step on successful verification, and round trip -/

/-- Replacing the row that `find?`-by-id located yields the replacement on
the next `find?` with the same id. -/
lemma find?_map_replace (l : List Booking) (b0 b : Booking) (n : Nat)
    (h : l.find? (fun x => x.id = n) = some b0) (hb : b.id = n) :
    (l.map (fun x => if x.id = b.id then b else x)).find? (fun x => x.id = n) =
      some b := by
  induction l with
  | nil => simp at h
  | cons a l ih =>
    by_cases ha : a.id = n
    · have hab : a.id = b.id := by rw [ha, hb]
      simp [List.find?, hab, hb]
    · have hab : ¬ a.id = b.id := by rw [hb]; exact ha
      have h' : l.find? (fun x => x.id = n) = some b0 := by
        simpa [List.find?, ha] using h
      simp [List.find?, hab, ha, ih h']

/-- A payment appended to a list in which no row carries its reference id is
what `find?`-by-reference returns. -/
lemma find?_ref_append (l : List Payment) (p : Payment) (r : String)
    (hfresh : ∀ q ∈ l, q.referenceId ≠ r) (hp : p.referenceId = r) :
    (l ++ [p]).find? (fun q => q.referenceId = r) = some p := by
  induction l with
  | nil => simp [List.find?, hp]
  | cons a l ih =>
    have ha : ¬ a.referenceId = r := hfresh a (List.mem_cons_self a l)
    have ih' := ih (fun q hq => hfresh q (List.mem_cons_of_mem a hq))
    simpa [List.find?, ha] using ih'

/-- The booking-update step on a FULL payment whose booking is present. -/
lemma updateBookingPayment_full (db : DB) (p : Payment) (booking : Booking)
    (hf : findBooking? db p.bookingId = some booking)
    (hpt : p.paymentType = PaymentType.FULL) :
    updateBookingPayment db p = saveBooking db
      { booking with
          advancePaid := p.amount
          balanceAmount := 0
          paymentStatus := PaymentStatus.PAID } := by
  unfold updateBookingPayment
  rw [hf, hpt]

/-- A successful eSewa verification when the payment row is found:
the payment is completed and the booking-update step is applied. -/
lemma verifyEsewaPayment_found (db : DB) (cb : EsewaCallback) (p : Payment)
    (hfind : db.payments.find? (fun q => q.referenceId = cb.transaction_uuid) = some p)
    (hst : cb.status = "COMPLETE") :
    verifyEsewaPayment db cb = .ok (true, completedPayment p cb.transaction_code,
      updateBookingPayment (savePayment db (completedPayment p cb.transaction_code))
        (completedPayment p cb.transaction_code)) := by
  unfold verifyEsewaPayment completedPayment
  rw [hfind, hst]
  simp

/-- C6: the booking-update step sets, per payment type —
ADVANCE: advancePaid = amount, balanceAmount = totalAmount − amount,
paymentStatus = PARTIAL; FULL: advancePaid = amount, balanceAmount = 0,
paymentStatus = PAID; BALANCE: advancePaid += amount, balanceAmount = 0,
paymentStatus = PAID — and `initiatePayment` followed by one successful
verification with paymentType = FULL leaves the booking PAID with zero
balance. -/
theorem updateBookingPayment_spec :
    (∀ (db : DB) (p : Payment) (booking : Booking),
      findBooking? db p.bookingId = some booking →
      (p.paymentType = PaymentType.ADVANCE →
        updateBookingPayment db p = saveBooking db
          { booking with
              advancePaid := p.amount
              balanceAmount := booking.totalAmount - p.amount
              paymentStatus := PaymentStatus.PARTIAL }) ∧
      (p.paymentType = PaymentType.FULL →
        updateBookingPayment db p = saveBooking db
          { booking with
              advancePaid := p.amount
              balanceAmount := 0
              paymentStatus := PaymentStatus.PAID }) ∧
      (p.paymentType = PaymentType.BALANCE →
        updateBookingPayment db p = saveBooking db
          { booking with
              advancePaid := booking.advancePaid + p.amount
              balanceAmount := 0
              paymentStatus := PaymentStatus.PAID })) ∧
    (∀ (db : DB) (dto : InitiatePaymentDto) (userId freshId : Nat)
        (freshRef : String) (p : Payment) (db1 : DB) (cb : EsewaCallback)
        (verified : Bool) (p2 : Payment) (db2 : DB),
      dto.paymentType = some PaymentType.FULL →
      (∀ q ∈ db.payments, q.referenceId ≠ freshRef) →
      initiatePayment db dto userId freshId freshRef = .ok (p, db1) →
      cb.transaction_uuid = freshRef →
      cb.status = "COMPLETE" →
      verifyEsewaPayment db1 cb = .ok (verified, p2, db2) →
      ∃ b2, findBooking? db2 dto.bookingId = some b2 ∧
        b2.paymentStatus = PaymentStatus.PAID ∧ b2.balanceAmount = 0) := by
  constructor
  · intro db p booking hf
    refine ⟨?_, ?_, ?_⟩ <;> intro hpt <;>
      (unfold updateBookingPayment; rw [hf, hpt])
  · intro db dto userId freshId freshRef p db1 cb verified p2 db2
      hpt hfresh hinit hcbu hcbs hver
    -- dissect the initiation run
    unfold initiatePayment at hinit
    cases hf : findBooking? db dto.bookingId with
    | none =>
      rw [hf] at hinit
      simp [throw, throwThe, MonadExceptOf.throw] at hinit
    | some booking =>
      rw [hf] at hinit
      by_cases ho : booking.userId = userId
      case neg =>
        simp [ho, Bind.bind, Except.bind, pure, Except.pure,
          throw, throwThe, MonadExceptOf.throw] at hinit
      by_cases hamt : dto.amount = booking.totalAmount
      case neg =>
        simp [ho, hpt, hamt, Bind.bind, Except.bind, pure, Except.pure,
          throw, throwThe, MonadExceptOf.throw] at hinit
      simp only [ho, hpt, hamt, Option.getD_some, Bind.bind, Except.bind,
        pure, Except.pure, ne_eq, not_true_eq_false, and_false, false_and,
        and_true, not_false_eq_true, ite_false, ite_true, reduceCtorEq,
        if_false, if_true, Except.ok.injEq, Prod.mk.injEq] at hinit
      obtain ⟨hp, hdb1⟩ := hinit
      have hbid : booking.id = dto.bookingId := by
        simpa using List.find?_some hf
      subst hp
      subst hdb1
      -- dissect the verification run
      rw [verifyEsewaPayment_found _ cb _
        (by rw [hcbu]
            exact find?_ref_append db.payments _ freshRef hfresh rfl) hcbs] at hver
      simp only [Except.ok.injEq, Prod.mk.injEq] at hver
      obtain ⟨-, -, hdb2⟩ := hver
      rw [← hdb2]
      -- apply the FULL branch of the booking-update step
      rw [updateBookingPayment_full _ _ booking (by rw [hbid]; exact hf) rfl]
      refine ⟨{ booking with
          advancePaid := booking.totalAmount
          balanceAmount := 0
          paymentStatus := PaymentStatus.PAID }, ?_, rfl, rfl⟩
      exact find?_map_replace db.bookings booking _ dto.bookingId hf hbid

/-- Witness for C6: the BALANCE equation at a concrete payment, and the
concrete FULL round trip ending PAID with zero balance. -/
theorem updateBookingPayment_spec_witness :
    (findBooking? c6DB c6BalPayment.bookingId = some c6Booking ∧
      updateBookingPayment c6DB c6BalPayment = saveBooking c6DB
        { c6Booking with
            advancePaid := c6Booking.advancePaid + c6BalPayment.amount
            balanceAmount := 0
            paymentStatus := PaymentStatus.PAID }) ∧
    (c6Dto.paymentType = some PaymentType.FULL ∧
      initiatePayment c6DB c6Dto 7 11 "PAY-C6" = .ok (c6InitPair.1, c6InitPair.2) ∧
      verifyEsewaPayment c6InitPair.2 c6Cb =
        .ok (c6VerResult.1, c6VerResult.2.1, c6VerResult.2.2) ∧
      ∃ b2, findBooking? c6VerResult.2.2 c6Dto.bookingId = some b2 ∧
        b2.paymentStatus = PaymentStatus.PAID ∧ b2.balanceAmount = 0) :=
  ⟨⟨rfl, (updateBookingPayment_spec.1 c6DB c6BalPayment c6Booking rfl).2.2 rfl⟩,
    ⟨rfl, rfl, rfl,
      updateBookingPayment_spec.2 c6DB c6Dto 7 11 "PAY-C6" c6InitPair.1 c6InitPair.2
        c6Cb c6VerResult.1 c6VerResult.2.1 c6VerResult.2.2 rfl
        (by simp [c6DB]) rfl rfl rfl rfl⟩⟩

/-! ## C1 — repeat verification is NOT idempotent (double credit) -/

/-- C1 (code bug): replaying the successful callback for the
already-COMPLETED BALANCE payment re-runs the booking-update step and
double-credits: advancePaid moves from 10000 to 15000 instead of staying
unchanged. -/
theorem verifyEsewaPayment_repeat_double_credits :
    c1Payment.status = TransactionStatus.COMPLETED ∧
    c1Booking.advancePaid = 10000 ∧
    verifyEsewaPayment c1DB c1Cb = .ok (c1Result.1, c1Result.2.1, c1Result.2.2) ∧
    c1Result.1 = true ∧
    (findBooking? c1Result.2.2 21).map Booking.advancePaid = some 15000 := by
  refine ⟨rfl, rfl, rfl, rfl, ?_⟩
  show (some ((10000 : ℚ) + 5000) : Option ℚ) = some 15000
  norm_num

/-! ## C3 — CANCELLED/COMPLETED are not terminal under updateStatus -/

/-- C3 counterexample: an admin `updateStatus` call on a CANCELLED booking
succeeds and moves it to CONFIRMED — a transition out of a supposedly
terminal state. -/
theorem updateStatus_uncancels_for_admin :
    c3Booking.status = BookingStatus.CANCELLED ∧
    updateStatus c3DB 31 c3Dto 99 "ADMIN" { day := 100, msOfDay := 0 } =
      .ok (c3Result.1, c3Result.2) ∧
    (c3Result.1).status = BookingStatus.CONFIRMED :=
  ⟨rfl, rfl, rfl⟩

/-- C3 amended: `updateStatus` never inspects the current status, so
CANCELLED and COMPLETED are not terminal: for a booking in either state, an
admin request carrying any target status succeeds and sets exactly that
status. -/
theorem updateStatus_admin_overrides_terminal (db : DB) (id : Nat)
    (dto : UpdateBookingStatusDto) (userId : Nat) (now : Instant)
    (booking : Booking) (venue : Venue) (s : BookingStatus)
    (hb : findBooking? db id = some booking)
    (hterm : booking.status = BookingStatus.CANCELLED ∨
      booking.status = BookingStatus.COMPLETED)
    (hv : findVenue db booking.venueId = .ok venue)
    (hs : dto.status = some s) :
    ∃ b' db', updateStatus db id dto userId "ADMIN" now = .ok (b', db') ∧
      b'.status = s := by
  unfold updateStatus
  rw [hb]
  by_cases hsc : s = BookingStatus.CANCELLED
  · cases hps : dto.paymentStatus <;>
      simp [hv, hs, hps, hsc, Bind.bind, Except.bind, pure, Except.pure]
  · cases hps : dto.paymentStatus <;>
      simp [hv, hs, hps, hsc, Bind.bind, Except.bind, pure, Except.pure]

/-- Witness for the amended C3 at the concrete cancelled booking. -/
theorem updateStatus_admin_overrides_terminal_witness :
    (findBooking? c3DB 31 = some c3Booking ∧
      (c3Booking.status = BookingStatus.CANCELLED ∨
        c3Booking.status = BookingStatus.COMPLETED) ∧
      findVenue c3DB c3Booking.venueId = .ok demoVenue ∧
      c3Dto.status = some BookingStatus.CONFIRMED) ∧
    (∃ b' db', updateStatus c3DB 31 c3Dto 99 "ADMIN" { day := 100, msOfDay := 0 } =
      .ok (b', db') ∧ b'.status = BookingStatus.CONFIRMED) :=
  ⟨⟨rfl, Or.inl rfl, rfl, rfl⟩,
    updateStatus_admin_overrides_terminal c3DB 31 c3Dto 99
      { day := 100, msOfDay := 0 } c3Booking demoVenue BookingStatus.CONFIRMED
      rfl (Or.inl rfl) rfl rfl⟩

/-! ## C4 — reschedule does not exclude the booking itself -/

/-- C4 (code bug): rescheduling the only booking of the venue to an interval
that overlaps nothing but its own current slot, on a non-blocked day, is
rejected with a Conflict, because `reschedule` runs `checkAvailability`
without excluding the booking being rescheduled. -/
theorem reschedule_rejects_self_overlap :
    c4Booking.status = BookingStatus.PENDING ∧
    demoVenue.blockedDates = [] ∧
    c4DB.bookings = [c4Booking] ∧
    reschedule c4DB 41 c4Dto 7 =
      .error (.badRequest "The new date/time is not available") :=
  ⟨rfl, rfl, rfl, rfl⟩

end EMS
